import Mathlib

/-!
Verification of the event-booking reservation engine.

The program is a Supabase-backed event ticketing app.  Its seat-inventory
core lives in the SQL schema (tables `events`, `bookings`, `user_profiles`
with CHECK constraints, row-level-security policies, and the triggers
`update_seats_on_booking` / `restore_seats_on_cancel`) and in three client
handlers: `handleBooking` (insert a confirmed booking), `handleCancelBooking`
(set a booking's status to `cancelled`), and the admin page's `handleSubmit` /
`handleDelete` (direct writes to the `events` table).

We embed the rows as structures, a database state as lists of rows, and each
operation as a function that either commits a new state or aborts with the
database error Postgres would raise (transactions are all-or-nothing, so an
aborted operation returns an error and the caller keeps the old state).
Fields that never influence control flow (dates, locations, image URLs,
prices, timestamps) are omitted from the row structures.

Both trigger functions are declared `LANGUAGE plpgsql` with no
`SECURITY DEFINER`, so they execute with the privileges of the user whose
statement fired them.  Row-level security therefore applies to the
`UPDATE events` inside them, and the only UPDATE policy on `events` is the
admin-only one: for a non-admin session the trigger's update matches zero
rows and silently does nothing.  The embedding threads the invoking
session's admin flag into the trigger bodies to model this.
-/

namespace BookingPortal

/-- Status column: `booking_status text CHECK (booking_status IN ('confirmed','cancelled'))`. -/
inductive BookingStatus
  | confirmed
  | cancelled
deriving DecidableEq, Repr

/-- A row of the `events` table (seat-relevant columns). -/
structure EventRow where
  id : Nat
  title : String
  total_seats : Int
  available_seats : Int
deriving DecidableEq, Repr

/-- A row of the `bookings` table. -/
structure BookingRow where
  id : Nat
  user_id : Nat
  event_id : Nat
  seats_booked : Int
  booking_status : BookingStatus
deriving DecidableEq, Repr

/-- A row of the `user_profiles` table. -/
structure UserProfile where
  id : Nat
  is_admin : Bool
deriving DecidableEq, Repr

/-- The database state: the three tables. -/
structure DB where
  events : List EventRow
  bookings : List BookingRow
  profiles : List UserProfile
deriving DecidableEq, Repr

/-- Errors a statement can raise; an error aborts the whole transaction.
Constraint names follow Postgres's default naming for the schema's
constraints. -/
inductive DbError
  | checkViolation (constraintName : String)
  | uniqueViolation (constraintName : String)
  | foreignKeyViolation (constraintName : String)
  | rlsViolation
deriving DecidableEq, Repr

/-- Constraints `CHECK (total_seats > 0)` and `CHECK (available_seats >= 0)` on `events`.
(The schema has no `available_seats <= total_seats` check.) -/
def eventCheck (e : EventRow) : Bool :=
  decide (0 < e.total_seats) && decide (0 ≤ e.available_seats)

/-- Constraint `CHECK (seats_booked > 0)` on `bookings`. -/
def bookingCheck (b : BookingRow) : Bool :=
  decide (0 < b.seats_booked)

/-- The `UNIQUE(user_id, event_id, booking_status)` key of `bookings`. -/
def bookingKeyClash (b c : BookingRow) : Bool :=
  b.user_id == c.user_id && b.event_id == c.event_id &&
    decide (b.booking_status = c.booking_status)

/-- Predicate `EXISTS (SELECT 1 FROM user_profiles WHERE id = auth.uid() AND is_admin)`,
the predicate used by every admin RLS policy. -/
def isAdminUser (db : DB) (uid : Nat) : Bool :=
  db.profiles.any (fun p => p.id == uid && p.is_admin)

/-- The row images of `UPDATE events SET available_seats = available_seats +
delta WHERE id = eid`. -/
def setAvailDelta (evs : List EventRow) (eid : Nat) (delta : Int) : List EventRow :=
  evs.map fun e =>
    if e.id == eid then { e with available_seats := e.available_seats + delta } else e

/-- Statement `UPDATE events SET available_seats = available_seats + delta
WHERE id = eid`, executed with the invoking session's rights (`admin` is
that session's `is_admin` lookup).  Row-level security conjoins the
admin-only UPDATE policy on `events` to the row filter: a non-admin session
matches zero rows, so the statement succeeds and changes nothing.  For an
admin session every matched row is updated and re-validated against the
row CHECK constraints: a violating row aborts the statement (and hence the
enclosing transaction). -/
def updateEventsSetAvailable (admin : Bool) (evs : List EventRow) (eid : Nat)
    (delta : Int) : Except DbError (List EventRow) :=
  if admin then
    if !(setAvailDelta evs eid delta).all
        (fun e => e.id != eid || decide (0 < e.total_seats)) then
      .error (.checkViolation "events_total_seats_check")
    else if !(setAvailDelta evs eid delta).all
        (fun e => e.id != eid || decide (0 ≤ e.available_seats)) then
      .error (.checkViolation "events_available_seats_check")
    else
      .ok (setAvailDelta evs eid delta)
  else
    .ok evs

/-- Trigger function `update_seats_on_booking` (AFTER INSERT ON bookings):
if the new booking is confirmed, run the seat-decrement update.  The
function has no `SECURITY DEFINER`, so the update runs as the inserting
user (`admin` = that user's admin flag) and is RLS-filtered accordingly. -/
def update_seats_on_booking (admin : Bool) (evs : List EventRow)
    (new : BookingRow) : Except DbError (List EventRow) :=
  if new.booking_status = BookingStatus.confirmed then
    updateEventsSetAvailable admin evs new.event_id (-new.seats_booked)
  else
    .ok evs

/-- Trigger function `restore_seats_on_cancel` (AFTER UPDATE ON bookings):
if the row moved from confirmed to cancelled, run the seat-restore update.
The function has no `SECURITY DEFINER`, so the update runs as the user who
issued the booking update (`admin` = that user's admin flag) and is
RLS-filtered accordingly. -/
def restore_seats_on_cancel (admin : Bool) (evs : List EventRow)
    (old new : BookingRow) : Except DbError (List EventRow) :=
  if old.booking_status = BookingStatus.confirmed ∧
      new.booking_status = BookingStatus.cancelled then
    updateEventsSetAvailable admin evs old.event_id old.seats_booked
  else
    .ok evs

/-- The booking row built by `handleBooking` (`user_id := uid`,
`booking_status := 'confirmed'`); the RLS insert policy
`auth.uid() = user_id AND booking_status = 'confirmed'` holds by
construction. -/
def reserveRow (uid eid : Nat) (seats : Int) (newId : Nat) : BookingRow :=
  { id := newId, user_id := uid, event_id := eid,
    seats_booked := seats, booking_status := BookingStatus.confirmed }

/-- The `INSERT INTO bookings` transaction issued by `handleBooking`.
Checks, in order: the row CHECK constraint, the primary key, the composite
unique key, the two foreign keys, then the AFTER INSERT trigger (run as the
inserting user, so its events update is RLS-filtered by that user's admin
flag).  Any failure aborts the whole transaction. -/
def reserveTx (db : DB) (uid eid : Nat) (seats : Int) (newId : Nat) :
    Except DbError DB :=
  if !bookingCheck (reserveRow uid eid seats newId) then
    .error (.checkViolation "bookings_seats_booked_check")
  else if db.bookings.any (fun c => c.id == newId) then
    .error (.uniqueViolation "bookings_pkey")
  else if db.bookings.any (fun c => bookingKeyClash (reserveRow uid eid seats newId) c) then
    .error (.uniqueViolation "bookings_user_id_event_id_booking_status_key")
  else if !db.profiles.any (fun p => p.id == uid) then
    .error (.foreignKeyViolation "bookings_user_id_fkey")
  else if !db.events.any (fun e => e.id == eid) then
    .error (.foreignKeyViolation "bookings_event_id_fkey")
  else
    match update_seats_on_booking (isAdminUser db uid) db.events
        (reserveRow uid eid seats newId) with
    | .error err => .error err
    | .ok evs' =>
      .ok { db with bookings := db.bookings ++ [reserveRow uid eid seats newId],
                    events := evs' }

/-- Outcome of the client's booking handler. -/
inductive ReserveResult
  | ok
  | clientInsufficient
  | dbError (e : DbError)
deriving DecidableEq, Repr

/-- Handler `EventDetailPage.handleBooking`: first the client-side test
`seatsToBook > event.available_seats` against the page's (possibly stale)
snapshot of the event — on failure no request is sent — then the insert
transaction.  Returns the result together with the state the caller ends up
observing (unchanged on any failure). -/
def handleBooking (db : DB) (snapshotAvailable : Int) (uid eid : Nat)
    (seats : Int) (newId : Nat) : ReserveResult × DB :=
  if seats > snapshotAvailable then
    (.clientInsufficient, db)
  else
    match reserveTx db uid eid seats newId with
    | .ok db' => (.ok, db')
    | .error e => (.dbError e, db)

/-- The `UPDATE bookings SET booking_status = 'cancelled' WHERE id = bid`
transaction issued by `handleCancelBooking`.  Row-level security restricts
the update to rows with `auth.uid() = user_id` (the only UPDATE policy on
`bookings`); an update that matches no visible row succeeds and changes
nothing.  On the matched row: the composite unique key is re-checked against
the other rows, and the AFTER UPDATE trigger runs as the requesting user,
so its events update is RLS-filtered by the requester's admin flag. -/
def cancelledRow (b : BookingRow) : BookingRow :=
  { b with booking_status := BookingStatus.cancelled }

def cancelTx (db : DB) (requester bid : Nat) : Except DbError DB :=
  match db.bookings.find? (fun b => b.id == bid && b.user_id == requester) with
  | none => .ok db
  | some old =>
    if db.bookings.any (fun c => c.id != old.id && bookingKeyClash (cancelledRow old) c) then
      .error (.uniqueViolation "bookings_user_id_event_id_booking_status_key")
    else
      match restore_seats_on_cancel (isAdminUser db requester) db.events old
          (cancelledRow old) with
      | .error err => .error err
      | .ok evs' =>
        .ok { db with
              bookings := db.bookings.map fun b =>
                if b.id == bid && b.user_id == requester then cancelledRow b else b,
              events := evs' }

/-- Handler `DashboardPage.handleCancelBooking`: issue the update; on error the
caller keeps the old state and shows the error, otherwise it refetches. -/
def handleCancelBooking (db : DB) (requester bid : Nat) : Option DbError × DB :=
  match cancelTx db requester bid with
  | .ok db' => (none, db')
  | .error e => (some e, db)

/-- The editable fields of the admin event form (seat-relevant subset). -/
structure EventForm where
  title : String
  total_seats : Int
  available_seats : Int
deriving DecidableEq, Repr

/-- Handler `AdminPage.handleSubmit`, edit branch: `UPDATE events SET ... WHERE id =
eid` with the form's values.  RLS: only admins pass the USING clause, so a
non-admin's update matches no rows and changes nothing; the updated row is
re-validated against the CHECK constraints. -/
def applyEventForm (e : EventRow) (form : EventForm) : EventRow :=
  { e with title := form.title, total_seats := form.total_seats,
           available_seats := form.available_seats }

def adminUpdateEvent (db : DB) (requester eid : Nat) (form : EventForm) :
    Except DbError DB :=
  if !isAdminUser db requester then
    .ok db
  else
    match db.events.find? (fun e => e.id == eid) with
    | none => .ok db
    | some e =>
      if !(decide (0 < (applyEventForm e form).total_seats)) then
        .error (.checkViolation "events_total_seats_check")
      else if !(decide (0 ≤ (applyEventForm e form).available_seats)) then
        .error (.checkViolation "events_available_seats_check")
      else
        .ok { db with events := db.events.map fun x =>
                if x.id == eid then applyEventForm x form else x }

/-- Handler `AdminPage.handleSubmit`, create branch: `INSERT INTO events`.  The RLS
insert policy rejects non-admins with an error; the new row must satisfy the
CHECK constraints and the primary key. -/
def eventFromForm (form : EventForm) (newId : Nat) : EventRow :=
  { id := newId, title := form.title, total_seats := form.total_seats,
    available_seats := form.available_seats }

def adminCreateEvent (db : DB) (requester : Nat) (form : EventForm) (newId : Nat) :
    Except DbError DB :=
  if !isAdminUser db requester then
    .error .rlsViolation
  else if !(decide (0 < (eventFromForm form newId).total_seats)) then
    .error (.checkViolation "events_total_seats_check")
  else if !(decide (0 ≤ (eventFromForm form newId).available_seats)) then
    .error (.checkViolation "events_available_seats_check")
  else if db.events.any (fun x => x.id == newId) then
    .error (.uniqueViolation "events_pkey")
  else
    .ok { db with events := db.events ++ [eventFromForm form newId] }

/-- Handler `AdminPage.handleDelete`: `DELETE FROM events WHERE id = eid`.  RLS lets
only admins match rows; `bookings.event_id REFERENCES events(id) ON DELETE
CASCADE` removes the dependent bookings. -/
def adminDeleteEvent (db : DB) (requester eid : Nat) : Except DbError DB :=
  if !isAdminUser db requester then
    .ok db
  else
    .ok { db with events := db.events.filter (fun e => e.id != eid),
                  bookings := db.bookings.filter (fun b => b.event_id != eid) }

/-- The state an admin-page caller observes after `handleSubmit`'s edit
branch (unchanged on error). -/
def runAdminUpdate (db : DB) (requester eid : Nat) (form : EventForm) :
    Option DbError × DB :=
  match adminUpdateEvent db requester eid form with
  | .ok db' => (none, db')
  | .error e => (some e, db)

/-- The state an admin-page caller observes after `handleSubmit`'s create
branch (unchanged on error). -/
def runAdminCreate (db : DB) (requester : Nat) (form : EventForm) (newId : Nat) :
    Option DbError × DB :=
  match adminCreateEvent db requester form newId with
  | .ok db' => (none, db')
  | .error e => (some e, db)

/-- The state observed after `handleDelete` (unchanged on error). -/
def runAdminDelete (db : DB) (requester eid : Nat) : Option DbError × DB :=
  match adminDeleteEvent db requester eid with
  | .ok db' => (none, db')
  | .error e => (some e, db)

/-- One completed operation of the application: a step of the system's
transition relation. -/
inductive Step : DB → DB → Prop
  | reserve (db : DB) (snap : Int) (uid eid : Nat) (seats : Int) (newId : Nat) :
      Step db (handleBooking db snap uid eid seats newId).2
  | cancel (db : DB) (requester bid : Nat) :
      Step db (handleCancelBooking db requester bid).2
  | adminUpdate (db : DB) (requester eid : Nat) (form : EventForm) :
      Step db (runAdminUpdate db requester eid form).2
  | adminCreate (db : DB) (requester : Nat) (form : EventForm) (newId : Nat) :
      Step db (runAdminCreate db requester form newId).2
  | adminDelete (db : DB) (requester eid : Nat) :
      Step db (runAdminDelete db requester eid).2

/-- Sum of `seats_booked` over the confirmed bookings of event `eid`. -/
def confirmedSeats (bs : List BookingRow) (eid : Nat) : Int :=
  (bs.map fun b =>
    if b.event_id == eid && decide (b.booking_status = BookingStatus.confirmed) then
      b.seats_booked
    else 0).sum

/-- The spec's seat accounting invariant for every event row. -/
def SeatInvariant (db : DB) : Prop :=
  ∀ e ∈ db.events, e.available_seats = e.total_seats - confirmedSeats db.bookings e.id

/-- Rows present in the database satisfy the schema's constraints:
primary keys are unique and the CHECK constraints hold. -/
def WF (db : DB) : Prop :=
  db.bookings.Pairwise (fun a b => a.id ≠ b.id) ∧
  db.events.Pairwise (fun a b => a.id ≠ b.id) ∧
  (∀ e ∈ db.events, eventCheck e = true) ∧
  (∀ b ∈ db.bookings, bookingCheck b = true)

instance : DecidablePred SeatInvariant := fun db => by
  unfold SeatInvariant; infer_instance

instance : DecidablePred WF := fun db => by
  unfold WF; infer_instance

/-- A small sample state used by the concrete witnesses: one event with five
seats, two regular users, one admin, no bookings. -/
def sampleDb : DB :=
  { events := [{ id := 1, title := "Tech Conference 2025",
                 total_seats := 5, available_seats := 5 }],
    bookings := [],
    profiles := [{ id := 10, is_admin := false }, { id := 11, is_admin := false },
                 { id := 1, is_admin := true }] }

/-- State `sampleDb` after user 10 books three seats (booking id 100). -/
def sampleDbBooked : DB := (handleBooking sampleDb 5 10 1 3 100).2

/-- State `sampleDbBooked` after the owner (user 10) cancels booking 100. -/
def sampleDbCancelled : DB := (handleCancelBooking sampleDbBooked 10 100).2

/-- The event bounds the store actually enforces with CHECK constraints. -/
def ChecksHold (db : DB) : Prop :=
  ∀ e ∈ db.events, 0 < e.total_seats ∧ 0 ≤ e.available_seats

instance : DecidablePred ChecksHold := fun db => by
  unfold ChecksHold; infer_instance

/-- A one-seat event with two interested users, for the race witness. -/
def raceDb : DB :=
  { events := [{ id := 1, title := "Art Exhibition Opening Night",
                 total_seats := 1, available_seats := 1 }],
    bookings := [],
    profiles := [{ id := 10, is_admin := false }, { id := 11, is_admin := false }] }

end BookingPortal

namespace BookingPortal

/-! ### Helper lemmas about the embedded operations -/

/-- Membership description of `setAvailDelta`. -/
theorem setAvailDelta_mem (evs : List EventRow) (eid : Nat) (delta : Int)
    {e' : EventRow} (he' : e' ∈ setAvailDelta evs eid delta) :
    ∃ e ∈ evs, e' = (if e.id = eid then
      { e with available_seats := e.available_seats + delta } else e) := by
  rcases List.mem_map.mp he' with ⟨e, he, rfl⟩
  by_cases hid : e.id = eid
  · exact ⟨e, he, by simp [hid]⟩
  · exact ⟨e, he, by simp [hid]⟩

/-- Characterization of a successful guarded seat update in an admin
session (the only kind whose update matches any row). -/
theorem updateEvents_ok (evs : List EventRow) (eid : Nat) (delta : Int)
    (evs' : List EventRow)
    (h : updateEventsSetAvailable true evs eid delta = .ok evs') :
    evs' = setAvailDelta evs eid delta ∧
    ∀ e ∈ evs', e.id = eid → 0 < e.total_seats ∧ 0 ≤ e.available_seats := by
  unfold updateEventsSetAvailable at h
  rw [if_pos rfl] at h
  split at h
  · exact absurd h (by simp)
  · split at h
    · exact absurd h (by simp)
    · rename_i h1 h2
      rw [Except.ok.injEq] at h
      subst h
      refine ⟨rfl, ?_⟩
      rw [Bool.not_eq_true', Bool.not_eq_false, List.all_eq_true] at h1 h2
      intro e he heid
      have t1 := h1 e he
      have t2 := h2 e he
      rw [Bool.or_eq_true, bne_iff_ne, decide_eq_true_eq] at t1 t2
      constructor
      · rcases t1 with t1 | t1
        · exact absurd heid t1
        · exact t1
      · rcases t2 with t2 | t2
        · exact absurd heid t2
        · exact t2

/-- Case split on a successful seat update: a non-admin session's update is
a silent no-op (zero rows matched under RLS); an admin session's update is
the guarded rewrite. -/
theorem updateEvents_ok_cases (admin : Bool) (evs : List EventRow) (eid : Nat)
    (delta : Int) (evs' : List EventRow)
    (h : updateEventsSetAvailable admin evs eid delta = .ok evs') :
    (admin = false ∧ evs' = evs) ∨
    (admin = true ∧ evs' = setAvailDelta evs eid delta ∧
      ∀ e ∈ evs', e.id = eid → 0 < e.total_seats ∧ 0 ≤ e.available_seats) := by
  cases admin with
  | false =>
    left
    refine ⟨rfl, ?_⟩
    unfold updateEventsSetAvailable at h
    rw [if_neg Bool.false_ne_true, Except.ok.injEq] at h
    exact h.symm
  | true =>
    right
    rcases updateEvents_ok evs eid delta evs' h with ⟨hev, hok⟩
    exact ⟨rfl, hev, hok⟩

end BookingPortal

namespace BookingPortal

/-- The insert trigger on the client's row always takes the confirmed branch. -/
theorem update_seats_on_booking_reserveRow (admin : Bool) (evs : List EventRow)
    (uid eid : Nat) (seats : Int) (newId : Nat) :
    update_seats_on_booking admin evs (reserveRow uid eid seats newId)
      = updateEventsSetAvailable admin evs eid (-seats) := rfl

/-- Shape of a successful reserve transaction: the booking row is always
appended, while the seat decrement happens only when the inserting user is
an admin — for anyone else the trigger's events update is RLS-filtered to
zero rows and the events table is untouched. -/
theorem reserveTx_ok_elim (db : DB) (uid eid : Nat) (seats : Int) (newId : Nat)
    (db' : DB) (h : reserveTx db uid eid seats newId = .ok db') :
    db'.bookings = db.bookings ++ [reserveRow uid eid seats newId] ∧
    db'.profiles = db.profiles ∧
    0 < seats ∧ (∀ c ∈ db.bookings, c.id ≠ newId) ∧
    ((isAdminUser db uid = false ∧ db'.events = db.events) ∨
     (isAdminUser db uid = true ∧ db'.events = setAvailDelta db.events eid (-seats) ∧
      ∀ e ∈ db'.events, e.id = eid → 0 < e.total_seats ∧ 0 ≤ e.available_seats)) := by
  unfold reserveTx at h
  by_cases h1 : bookingCheck (reserveRow uid eid seats newId) = true
  · rw [if_neg (by simp [h1])] at h
    by_cases h2 : db.bookings.any (fun c => c.id == newId) = true
    · rw [if_pos h2] at h
      simp at h
    · rw [if_neg h2] at h
      by_cases h3 :
          db.bookings.any (fun c => bookingKeyClash (reserveRow uid eid seats newId) c) = true
      · rw [if_pos h3] at h
        simp at h
      · rw [if_neg h3] at h
        by_cases h4 : db.profiles.any (fun p => p.id == uid) = true
        · rw [if_neg (by simp [h4])] at h
          by_cases h5 : db.events.any (fun e => e.id == eid) = true
          · rw [if_neg (by simp [h5])] at h
            rw [update_seats_on_booking_reserveRow] at h
            cases hupd : updateEventsSetAvailable (isAdminUser db uid) db.events eid (-seats) with
            | error err => rw [hupd] at h; simp at h
            | ok evs' =>
              rw [hupd] at h
              rw [Except.ok.injEq] at h
              subst h
              refine ⟨rfl, rfl, ?_, ?_, ?_⟩
              · simpa [bookingCheck, reserveRow] using h1
              · intro c hc hcid
                exact h2 (List.any_eq_true.mpr ⟨c, hc, by simpa using hcid⟩)
              · rcases updateEvents_ok_cases _ _ _ _ _ hupd with ⟨ha, rfl⟩ | ⟨ha, rfl, hok⟩
                · exact .inl ⟨ha, rfl⟩
                · exact .inr ⟨ha, rfl, hok⟩
          · rw [if_pos (by rw [Bool.eq_false_iff.mpr h5]; rfl)] at h
            simp at h
        · rw [if_pos (by rw [Bool.eq_false_iff.mpr h4]; rfl)] at h
          simp at h
  · rw [if_pos (by rw [Bool.eq_false_iff.mpr h1]; rfl)] at h
    simp at h

/-- Shape of a successful cancel transaction. -/
theorem cancelTx_ok_elim (db : DB) (requester bid : Nat) (db' : DB)
    (h : cancelTx db requester bid = .ok db') :
    (db.bookings.find? (fun b => b.id == bid && b.user_id == requester) = none ∧
      db' = db) ∨
    (∃ old, db.bookings.find? (fun b => b.id == bid && b.user_id == requester) = some old ∧
      restore_seats_on_cancel (isAdminUser db requester) db.events old
        (cancelledRow old) = .ok db'.events ∧
      db'.bookings = db.bookings.map (fun b =>
        if b.id == bid && b.user_id == requester then cancelledRow b else b) ∧
      db'.profiles = db.profiles) := by
  unfold cancelTx at h
  split at h
  · rename_i hf
    rw [Except.ok.injEq] at h
    exact .inl ⟨hf, h.symm⟩
  · rename_i old hf
    split at h
    · simp at h
    · split at h
      · simp at h
      · rename_i hclash evs' hres
        rw [Except.ok.injEq] at h
        subst h
        exact .inr ⟨old, hf, hres, rfl, rfl⟩

end BookingPortal

namespace BookingPortal


/-- C9: a Reserve call with `seats_requested <= 0` fails with the
`seats_booked > 0` CHECK violation (the code-level `InvalidQuantity`) and
the state is unchanged: no booking row is created and no seat count moves. -/
theorem reserve_invalid_quantity_rejected (db : DB) (snap : Int) (uid eid : Nat)
    (seats : Int) (newId : Nat) (hseats : seats ≤ 0) (hsnap : 0 ≤ snap) :
    handleBooking db snap uid eid seats newId
      = (.dbError (.checkViolation "bookings_seats_booked_check"), db) := by
  unfold handleBooking
  rw [if_neg (by omega)]
  have hchk : bookingCheck (reserveRow uid eid seats newId) = false := by
    simp only [bookingCheck, reserveRow, decide_eq_false_iff_not]
    omega
  have hr : reserveTx db uid eid seats newId
      = .error (.checkViolation "bookings_seats_booked_check") := by
    unfold reserveTx
    rw [if_pos (by rw [hchk]; rfl)]
  rw [hr]

/-- Concrete instance of C9's theorem: reserving zero seats fails and
changes nothing. -/
theorem reserve_invalid_quantity_rejected_witness :
    handleBooking sampleDb 5 10 1 0 100
      = (.dbError (.checkViolation "bookings_seats_booked_check"), sampleDb) :=
  reserve_invalid_quantity_rejected sampleDb 5 10 1 0 100 (by decide) (by decide)

/-- C3, evaluated at the failing input: user 10 (not an admin) reserves
three seats; the insert commits and returns success and the booking row is
appended, yet the events table is completely unchanged — the trigger's
decrement was RLS-filtered to zero rows — so a booking row exists with no
matching seat decrement, contrary to the claim. -/
theorem booking_without_decrement_bug :
    (handleBooking sampleDb 5 10 1 3 100).1 = ReserveResult.ok ∧
    (handleBooking sampleDb 5 10 1 3 100).2.bookings
      = sampleDb.bookings ++ [reserveRow 10 1 3 100] ∧
    (handleBooking sampleDb 5 10 1 3 100).2.events = sampleDb.events := by
  decide

/-- C7: a second Reserve by a user who already holds a confirmed booking on
the event hits the composite unique key (the code-level
`DuplicateActiveBooking`) and fails with the state unchanged, before any
seat count is mutated. -/
theorem duplicate_active_booking_rejected (db : DB) (snap : Int) (uid eid : Nat)
    (seats : Int) (newId : Nat) (b : BookingRow) (hb : b ∈ db.bookings)
    (hbu : b.user_id = uid) (hbe : b.event_id = eid)
    (hbs : b.booking_status = BookingStatus.confirmed)
    (hq : 0 < seats) (hcl : seats ≤ snap)
    (hfresh : ∀ c ∈ db.bookings, c.id ≠ newId) :
    handleBooking db snap uid eid seats newId
      = (.dbError (.uniqueViolation "bookings_user_id_event_id_booking_status_key"), db) := by
  unfold handleBooking
  rw [if_neg (by omega)]
  have hr : reserveTx db uid eid seats newId
      = .error (.uniqueViolation "bookings_user_id_event_id_booking_status_key") := by
    unfold reserveTx
    rw [if_neg (by simp [bookingCheck, reserveRow, hq])]
    rw [if_neg (fun hx => by
      rcases List.any_eq_true.mp hx with ⟨c, hc, hcid⟩
      exact hfresh c hc (by simpa using hcid))]
    rw [if_pos (List.any_eq_true.mpr
      ⟨b, hb, by simp [bookingKeyClash, reserveRow, hbu, hbe, hbs]⟩)]
  rw [hr]

/-- Concrete instance of C7's theorem: user 10, who already holds confirmed
booking 100, tries to reserve again and is rejected with no state change. -/
theorem duplicate_active_booking_rejected_witness :
    handleBooking sampleDbBooked 2 10 1 1 101
      = (.dbError (.uniqueViolation "bookings_user_id_event_id_booking_status_key"),
         sampleDbBooked) :=
  duplicate_active_booking_rejected sampleDbBooked 2 10 1 1 101
    { id := 100, user_id := 10, event_id := 1, seats_booked := 3,
      booking_status := BookingStatus.confirmed }
    (by decide) rfl rfl rfl (by decide) (by decide) (by decide)

end BookingPortal

namespace BookingPortal


/-- C8 counterexample: the admin (user 1) calls Cancel on user 10's
confirmed booking 100.  The update matches no row under the RLS policy, so
it returns success (`none`), mutates nothing, and the booking stays
confirmed — the admin cannot cancel it and no Forbidden-style error is
raised. -/
theorem admin_cancel_other_users_booking_noop :
    handleCancelBooking sampleDbBooked 1 100 = (none, sampleDbBooked) ∧
    isAdminUser sampleDbBooked 1 = true ∧
    ∃ b ∈ sampleDbBooked.bookings, b.id = 100 ∧ b.user_id = 10 ∧
      b.booking_status = BookingStatus.confirmed := by
  decide

/-- C8 amended: a Cancel whose requester is not the booking's owner —
whether admin or not — matches no row under the only UPDATE policy on
`bookings` (`auth.uid() = user_id`), so it performs no data mutation and
returns success rather than a Forbidden error; only the owner's Cancel can
touch the booking. -/
theorem non_owner_cancel_noop (db : DB) (requester bid : Nat)
    (h : ∀ b ∈ db.bookings, b.id = bid → b.user_id ≠ requester) :
    handleCancelBooking db requester bid = (none, db) := by
  unfold handleCancelBooking
  have hf : db.bookings.find? (fun b => b.id == bid && b.user_id == requester) = none := by
    rw [List.find?_eq_none]
    intro b hb
    simp only [Bool.and_eq_true, beq_iff_eq, not_and]
    exact h b hb
  have hr : cancelTx db requester bid = .ok db := by
    unfold cancelTx
    rw [hf]
  rw [hr]

/-- Concrete instance of C8's amended theorem: user 11 cannot touch user
10's booking. -/
theorem non_owner_cancel_noop_witness :
    handleCancelBooking sampleDbBooked 11 100 = (none, sampleDbBooked) :=
  non_owner_cancel_noop sampleDbBooked 11 100 (by decide)

/-- C5, evaluated at the failing input: the (non-admin) owner cancels
confirmed booking 100.  The call reports success and flips the status, but
the events table is unchanged — the restore trigger's update matched zero
rows under row-level security, so the seats are restored zero times, not
once — and a repeated cancel reports success again instead of an
`AlreadyCancelled` result. -/
theorem cancel_without_restore_bug :
    (handleCancelBooking sampleDbBooked 10 100).1 = none ∧
    (handleCancelBooking sampleDbBooked 10 100).2.events = sampleDbBooked.events ∧
    (∃ b ∈ sampleDbBooked.bookings, b.id = 100 ∧
      b.booking_status = BookingStatus.confirmed) ∧
    (∃ b ∈ (handleCancelBooking sampleDbBooked 10 100).2.bookings, b.id = 100 ∧
      b.booking_status = BookingStatus.cancelled) ∧
    handleCancelBooking sampleDbCancelled 10 100 = (none, sampleDbCancelled) := by
  decide

end BookingPortal

namespace BookingPortal

/-- C10 counterexample: the owner's cancel of booking 100 moves the row
along the confirmed-to-cancelled edge, yet the event's `available_seats`
is not incremented by the booking's `seats_booked` — the events table is
exactly as before, which differs from the incremented table the claim
demands. -/
theorem cancel_edge_no_increment_counterexample :
    (∃ b ∈ sampleDbBooked.bookings, b.id = 100 ∧
      b.booking_status = BookingStatus.confirmed) ∧
    (∃ b ∈ (handleCancelBooking sampleDbBooked 10 100).2.bookings, b.id = 100 ∧
      b.booking_status = BookingStatus.cancelled) ∧
    (handleCancelBooking sampleDbBooked 10 100).2.events = sampleDbBooked.events ∧
    sampleDbBooked.events ≠ setAvailDelta sampleDbBooked.events 1 3 := by
  decide

/-- C10 amended: a booking-row update touches the events table only when
the row moves along the confirmed-to-cancelled edge AND the invoking
session is an admin — the trigger runs with the invoker's rights, so for
any other session its UPDATE on `events` matches zero rows and the events
table is untouched; on an admin session's edge it is exactly the guarded
`+ seats_booked` update; since stored rows have `seats_booked > 0`, no
booking update ever decreases any `available_seats` — the decrement lives
only in the insert trigger `update_seats_on_booking`. -/
theorem booking_update_event_frame (admin : Bool) (evs : List EventRow)
    (old new : BookingRow) :
    (¬(old.booking_status = BookingStatus.confirmed ∧
        new.booking_status = BookingStatus.cancelled) →
      restore_seats_on_cancel admin evs old new = .ok evs) ∧
    (restore_seats_on_cancel false evs old new = .ok evs) ∧
    (admin = true → old.booking_status = BookingStatus.confirmed →
      new.booking_status = BookingStatus.cancelled →
      restore_seats_on_cancel admin evs old new
        = updateEventsSetAvailable true evs old.event_id old.seats_booked) ∧
    (0 < old.seats_booked →
      ∀ evs', restore_seats_on_cancel admin evs old new = .ok evs' →
        ∀ e' ∈ evs', ∃ e ∈ evs, e'.id = e.id ∧ e'.total_seats = e.total_seats ∧
          e.available_seats ≤ e'.available_seats) := by
  refine ⟨?_, ?_, ?_, ?_⟩
  · intro h
    unfold restore_seats_on_cancel
    rw [if_neg h]
  · unfold restore_seats_on_cancel
    split
    · rfl
    · rfl
  · intro ha h1 h2
    unfold restore_seats_on_cancel
    rw [if_pos ⟨h1, h2⟩, ha]
  · intro hpos evs' hok
    unfold restore_seats_on_cancel at hok
    split at hok
    · rcases updateEvents_ok_cases _ _ _ _ _ hok with ⟨_, rfl⟩ | ⟨_, rfl, _⟩
      · intro e' he'
        exact ⟨e', he', rfl, rfl, le_refl _⟩
      · intro e' he'
        rcases setAvailDelta_mem _ _ _ he' with ⟨e, he, rfl⟩
        by_cases hid : e.id = old.event_id
        · rw [if_pos hid]
          refine ⟨e, he, rfl, rfl, ?_⟩
          show e.available_seats ≤ e.available_seats + old.seats_booked
          omega
        · rw [if_neg hid]
          exact ⟨e, he, rfl, rfl, le_refl _⟩
    · rw [Except.ok.injEq] at hok
      subst hok
      intro e' he'
      exact ⟨e', he', rfl, rfl, le_refl _⟩

/-- Concrete instance of C10's amended theorem: a non-admin session's
reverse cancelled-to-confirmed edit never touches the events table. -/
theorem booking_update_event_frame_witness :
    restore_seats_on_cancel false sampleDb.events
      { id := 100, user_id := 10, event_id := 1, seats_booked := 3,
        booking_status := BookingStatus.cancelled }
      { id := 100, user_id := 10, event_id := 1, seats_booked := 3,
        booking_status := BookingStatus.confirmed } = .ok sampleDb.events :=
  (booking_update_event_frame false sampleDb.events
    { id := 100, user_id := 10, event_id := 1, seats_booked := 3,
      booking_status := BookingStatus.cancelled }
    { id := 100, user_id := 10, event_id := 1, seats_booked := 3,
      booking_status := BookingStatus.confirmed }).1 (by decide)

/-- C4 counterexample: the admin (user 1) edits event 1 and sets
`available_seats := 100` with `total_seats = 5`.  The update commits with
no error — the store has no `available_seats <= total_seats` constraint —
and the resulting state violates the claimed bound. -/
theorem admin_edit_exceeds_total_commits :
    (runAdminUpdate sampleDb 1 1
        { title := "Tech Conference 2025", total_seats := 5,
          available_seats := 100 }).1 = none ∧
    ∃ e ∈ (runAdminUpdate sampleDb 1 1
        { title := "Tech Conference 2025", total_seats := 5,
          available_seats := 100 }).2.events,
      e.total_seats < e.available_seats := by
  decide

end BookingPortal

namespace BookingPortal


/-- A guarded seat update keeps the enforced bounds on every row. -/
theorem checksHold_setAvailDelta (evs : List EventRow) (eid : Nat) (delta : Int)
    (hpre : ∀ e ∈ evs, 0 < e.total_seats ∧ 0 ≤ e.available_seats)
    (hok : ∀ e ∈ setAvailDelta evs eid delta, e.id = eid →
      0 < e.total_seats ∧ 0 ≤ e.available_seats) :
    ∀ e ∈ setAvailDelta evs eid delta, 0 < e.total_seats ∧ 0 ≤ e.available_seats := by
  intro e' he'
  rcases setAvailDelta_mem _ _ _ he' with ⟨e, he, rfl⟩
  by_cases hid : e.id = eid
  · apply hok _ he'
    rw [if_pos hid]
    exact hid
  · rw [if_neg hid]
    exact hpre e he

/-- Shape of a successful admin event edit. -/
theorem adminUpdateEvent_ok_elim (db : DB) (requester eid : Nat) (form : EventForm)
    (db' : DB) (h : adminUpdateEvent db requester eid form = .ok db') :
    db' = db ∨
    (0 < form.total_seats ∧ 0 ≤ form.available_seats ∧
      db'.events = db.events.map (fun x => if x.id == eid then applyEventForm x form else x) ∧
      db'.bookings = db.bookings ∧ db'.profiles = db.profiles) := by
  unfold adminUpdateEvent at h
  by_cases hadm : isAdminUser db requester = true
  · rw [if_neg (by simp [hadm])] at h
    split at h
    · rw [Except.ok.injEq] at h
      exact .inl h.symm
    · rename_i e hfind
      by_cases h1 : 0 < form.total_seats
      · rw [if_neg (by simp [applyEventForm, h1])] at h
        by_cases h2 : 0 ≤ form.available_seats
        · rw [if_neg (by simp [applyEventForm, h2])] at h
          rw [Except.ok.injEq] at h
          subst h
          exact .inr ⟨h1, h2, rfl, rfl, rfl⟩
        · rw [if_pos (by simp [applyEventForm, h2])] at h
          simp at h
      · rw [if_pos (by simp [applyEventForm, h1])] at h
        simp at h
  · rw [if_pos (by rw [Bool.eq_false_iff.mpr hadm]; rfl)] at h
    rw [Except.ok.injEq] at h
    exact .inl h.symm

/-- Shape of a successful admin event creation. -/
theorem adminCreateEvent_ok_elim (db : DB) (requester : Nat) (form : EventForm)
    (newId : Nat) (db' : DB) (h : adminCreateEvent db requester form newId = .ok db') :
    0 < form.total_seats ∧ 0 ≤ form.available_seats ∧
    db'.events = db.events ++ [eventFromForm form newId] ∧
    db'.bookings = db.bookings ∧ db'.profiles = db.profiles := by
  unfold adminCreateEvent at h
  by_cases hadm : isAdminUser db requester = true
  · rw [if_neg (by simp [hadm])] at h
    by_cases h1 : 0 < form.total_seats
    · rw [if_neg (by simp [eventFromForm, h1])] at h
      by_cases h2 : 0 ≤ form.available_seats
      · rw [if_neg (by simp [eventFromForm, h2])] at h
        by_cases h3 : db.events.any (fun x => x.id == newId) = true
        · rw [if_pos h3] at h
          simp at h
        · rw [if_neg h3] at h
          rw [Except.ok.injEq] at h
          subst h
          exact ⟨h1, h2, rfl, rfl, rfl⟩
      · rw [if_pos (by simp [eventFromForm, h2])] at h
        simp at h
    · rw [if_pos (by simp [eventFromForm, h1])] at h
      simp at h
  · rw [if_pos (by rw [Bool.eq_false_iff.mpr hadm]; rfl)] at h
    simp at h

/-- Shape of a successful admin event deletion. -/
theorem adminDeleteEvent_ok_elim (db : DB) (requester eid : Nat) (db' : DB)
    (h : adminDeleteEvent db requester eid = .ok db') :
    db' = db ∨
    (db'.events = db.events.filter (fun e => e.id != eid) ∧
      db'.bookings = db.bookings.filter (fun b => b.event_id != eid) ∧
      db'.profiles = db.profiles) := by
  unfold adminDeleteEvent at h
  by_cases hadm : isAdminUser db requester = true
  · rw [if_neg (by simp [hadm])] at h
    rw [Except.ok.injEq] at h
    subst h
    exact .inr ⟨rfl, rfl, rfl⟩
  · rw [if_pos (by rw [Bool.eq_false_iff.mpr hadm]; rfl)] at h
    rw [Except.ok.injEq] at h
    exact .inl h.symm

/-- C4 amended: after every completed operation the bounds the store
actually enforces — `total_seats > 0` and `0 <= available_seats` — still
hold for every event, because a violating write raises a CHECK violation
that aborts the whole transaction; the claimed upper bound
`available_seats <= total_seats` is NOT enforced anywhere (see the
counterexample, where an admin edit commits a state above `total_seats`
with no `ConstraintViolation`). -/
theorem enforced_bounds_preserved (db db' : DB) (hstep : Step db db')
    (hpre : ChecksHold db) : ChecksHold db' := by
  cases hstep with
  | reserve snap uid eid seats newId =>
    unfold handleBooking
    by_cases hc : seats > snap
    · rw [if_pos hc]
      exact hpre
    · rw [if_neg hc]
      cases hr : reserveTx db uid eid seats newId with
      | ok db1 =>
        rcases reserveTx_ok_elim db uid eid seats newId db1 hr with
          ⟨hbk, hprof, hq, hfresh, ⟨_, hev⟩ | ⟨_, hev, hok⟩⟩
        · intro e' he'
          have he'' : e' ∈ db1.events := he'
          rw [hev] at he''
          exact hpre e' he''
        · intro e' he'
          have he'' : e' ∈ db1.events := he'
          rw [hev] at he''
          exact checksHold_setAvailDelta db.events eid (-seats) hpre (hev ▸ hok) e' he''
      | error e =>
        exact hpre
  | cancel requester bid =>
    unfold handleCancelBooking
    cases hr : cancelTx db requester bid with
    | ok db1 =>
      rcases cancelTx_ok_elim db requester bid db1 hr with ⟨_, heq⟩ | ⟨old, hfind, hres, _, _⟩
      · intro e' he'
        have he'' : e' ∈ db1.events := he'
        rw [heq] at he''
        exact hpre e' he''
      · unfold restore_seats_on_cancel at hres
        split at hres
        · rcases updateEvents_ok_cases _ _ _ _ _ hres with ⟨_, hev⟩ | ⟨_, hev, hok⟩
          · intro e' he'
            have he'' : e' ∈ db1.events := he'
            rw [hev] at he''
            exact hpre e' he''
          · intro e' he'
            have he'' : e' ∈ db1.events := he'
            rw [hev] at he''
            exact checksHold_setAvailDelta db.events old.event_id old.seats_booked
              hpre (hev ▸ hok) e' he''
        · rw [Except.ok.injEq] at hres
          intro e' he'
          have he'' : e' ∈ db1.events := he'
          rw [← hres] at he''
          exact hpre e' he''
    | error e =>
      exact hpre
  | adminUpdate requester eid form =>
    unfold runAdminUpdate
    cases hr : adminUpdateEvent db requester eid form with
    | ok db1 =>
      rcases adminUpdateEvent_ok_elim db requester eid form db1 hr with
        rfl | ⟨h1, h2, hev, _, _⟩
      · exact hpre
      · intro e' he'
        have he'' : e' ∈ db1.events := he'
        rw [hev] at he''
        rcases List.mem_map.mp he'' with ⟨x, hx, rfl⟩
        by_cases hid : (x.id == eid) = true
        · rw [if_pos hid]
          exact ⟨h1, h2⟩
        · rw [if_neg hid]
          exact hpre x hx
    | error e =>
      exact hpre
  | adminCreate requester form newId =>
    unfold runAdminCreate
    cases hr : adminCreateEvent db requester form newId with
    | ok db1 =>
      rcases adminCreateEvent_ok_elim db requester form newId db1 hr with
        ⟨h1, h2, hev, _, _⟩
      intro e' he'
      have he'' : e' ∈ db1.events := he'
      rw [hev] at he''
      rcases List.mem_append.mp he'' with hx | hx
      · exact hpre e' hx
      · rcases List.mem_singleton.mp hx with rfl
        exact ⟨h1, h2⟩
    | error e =>
      exact hpre
  | adminDelete requester eid =>
    unfold runAdminDelete
    cases hr : adminDeleteEvent db requester eid with
    | ok db1 =>
      rcases adminDeleteEvent_ok_elim db requester eid db1 hr with
        rfl | ⟨hev, _, _⟩
      · exact hpre
      · intro e' he'
        have he'' : e' ∈ db1.events := he'
        rw [hev] at he''
        exact hpre e' (List.mem_filter.mp he'').1
    | error e =>
      exact hpre

/-- Concrete instance of C4's amended theorem: a successful Reserve keeps
the enforced bounds. -/
theorem enforced_bounds_preserved_witness :
    ChecksHold sampleDb ∧ ChecksHold sampleDbBooked :=
  ⟨by decide,
   enforced_bounds_preserved sampleDb sampleDbBooked
     (Step.reserve sampleDb 5 10 1 3 100) (by decide)⟩

end BookingPortal

namespace BookingPortal

/-- C1, evaluated at the failing input: the seat accounting invariant
holds in the sample state, user 10's Reserve of three seats completes with
success, and the invariant is false afterwards — `available_seats` still
reads 5 while the confirmed bookings on the event sum to 3 — because the
non-admin session's decrement trigger updated zero rows. -/
theorem reserve_breaks_seat_invariant_bug :
    SeatInvariant sampleDb ∧
    (handleBooking sampleDb 5 10 1 3 100).1 = ReserveResult.ok ∧
    ¬ SeatInvariant (handleBooking sampleDb 5 10 1 3 100).2 := by
  decide

end BookingPortal

namespace BookingPortal

/-- C6: across every operation of the application, a booking row in the
post-state either is newly created with status `confirmed` under a fresh
id, or keeps the status of the pre-state row with the same id, or moves
along the single edge confirmed → cancelled; in particular no operation
ever turns a cancelled booking back into a confirmed one. -/
theorem booking_status_one_way (db db' : DB) (hstep : Step db db') :
    ∀ b' ∈ db'.bookings,
      (∃ b ∈ db.bookings, b.id = b'.id ∧
        (b'.booking_status = b.booking_status ∨
          (b.booking_status = BookingStatus.confirmed ∧
           b'.booking_status = BookingStatus.cancelled))) ∨
      (b'.booking_status = BookingStatus.confirmed ∧
        ∀ b ∈ db.bookings, b.id ≠ b'.id) := by
  cases hstep with
  | reserve snap uid eid seats newId =>
    unfold handleBooking
    by_cases hc : seats > snap
    · rw [if_pos hc]
      intro b' hb'
      exact .inl ⟨b', hb', rfl, .inl rfl⟩
    · rw [if_neg hc]
      cases hr : reserveTx db uid eid seats newId with
      | error e =>
        intro b' hb'
        exact .inl ⟨b', hb', rfl, .inl rfl⟩
      | ok db1 =>
        rcases reserveTx_ok_elim db uid eid seats newId db1 hr with
          ⟨hbk, hprof, hq, hfresh, hdisj⟩
        intro b' hb'
        have hb'' : b' ∈ db1.bookings := hb'
        rw [hbk] at hb''
        rcases List.mem_append.mp hb'' with hx | hx
        · exact .inl ⟨b', hx, rfl, .inl rfl⟩
        · rcases List.mem_singleton.mp hx with rfl
          exact .inr ⟨rfl, fun b hb => hfresh b hb⟩
  | cancel requester bid =>
    unfold handleCancelBooking
    cases hr : cancelTx db requester bid with
    | error e =>
      intro b' hb'
      exact .inl ⟨b', hb', rfl, .inl rfl⟩
    | ok db1 =>
      rcases cancelTx_ok_elim db requester bid db1 hr with ⟨_, heq⟩ |
        ⟨old, hfind, hres, hbk, hprof⟩
      · intro b' hb'
        have hb'' : b' ∈ db1.bookings := hb'
        rw [heq] at hb''
        exact .inl ⟨b', hb'', rfl, .inl rfl⟩
      · intro b' hb'
        have hb'' : b' ∈ db1.bookings := hb'
        rw [hbk] at hb''
        rcases List.mem_map.mp hb'' with ⟨b, hb, rfl⟩
        by_cases hpb : (b.id == bid && b.user_id == requester) = true
        · rw [if_pos hpb]
          cases hbs : b.booking_status with
          | confirmed => exact .inl ⟨b, hb, rfl, .inr ⟨hbs, rfl⟩⟩
          | cancelled => exact .inl ⟨b, hb, rfl, .inl hbs.symm⟩
        · rw [if_neg hpb]
          exact .inl ⟨b, hb, rfl, .inl rfl⟩
  | adminUpdate requester eid form =>
    unfold runAdminUpdate
    cases hr : adminUpdateEvent db requester eid form with
    | error e =>
      intro b' hb'
      exact .inl ⟨b', hb', rfl, .inl rfl⟩
    | ok db1 =>
      rcases adminUpdateEvent_ok_elim db requester eid form db1 hr with
        rfl | ⟨h1, h2, hev, hbk, hprof⟩
      · intro b' hb'
        exact .inl ⟨b', hb', rfl, .inl rfl⟩
      · intro b' hb'
        have hb'' : b' ∈ db1.bookings := hb'
        rw [hbk] at hb''
        exact .inl ⟨b', hb'', rfl, .inl rfl⟩
  | adminCreate requester form newId =>
    unfold runAdminCreate
    cases hr : adminCreateEvent db requester form newId with
    | error e =>
      intro b' hb'
      exact .inl ⟨b', hb', rfl, .inl rfl⟩
    | ok db1 =>
      rcases adminCreateEvent_ok_elim db requester form newId db1 hr with
        ⟨h1, h2, hev, hbk, hprof⟩
      intro b' hb'
      have hb'' : b' ∈ db1.bookings := hb'
      rw [hbk] at hb''
      exact .inl ⟨b', hb'', rfl, .inl rfl⟩
  | adminDelete requester eid =>
    unfold runAdminDelete
    cases hr : adminDeleteEvent db requester eid with
    | error e =>
      intro b' hb'
      exact .inl ⟨b', hb', rfl, .inl rfl⟩
    | ok db1 =>
      rcases adminDeleteEvent_ok_elim db requester eid db1 hr with
        rfl | ⟨hev, hbk, hprof⟩
      · intro b' hb'
        exact .inl ⟨b', hb', rfl, .inl rfl⟩
      · intro b' hb'
        have hb'' : b' ∈ db1.bookings := hb'
        rw [hbk] at hb''
        exact .inl ⟨b', (List.mem_filter.mp hb'').1, rfl, .inl rfl⟩

/-- Concrete instance of C6's theorem: after the owner cancels booking 100,
the resulting cancelled row traces back to the confirmed pre-state row
along the one-way edge. -/
theorem booking_status_one_way_witness :
    (∃ b ∈ sampleDbBooked.bookings,
      b.id = 100 ∧
        (BookingStatus.cancelled = b.booking_status ∨
          (b.booking_status = BookingStatus.confirmed ∧
           BookingStatus.cancelled = BookingStatus.cancelled))) ∨
    (BookingStatus.cancelled = BookingStatus.confirmed ∧
      ∀ b ∈ sampleDbBooked.bookings, b.id ≠ 100) :=
  booking_status_one_way sampleDbBooked sampleDbCancelled
    (Step.cancel sampleDbBooked 10 100)
    { id := 100, user_id := 10, event_id := 1, seats_booked := 3,
      booking_status := BookingStatus.cancelled }
    (by decide)

end BookingPortal

namespace BookingPortal

/-- C2, evaluated at the failing input: two regular users race for the
last seat of a one-seat event from the same snapshot.  Both Reserve calls
succeed — neither insert triggers a decrement, since each trigger ran as a
non-admin and its events update matched zero rows, so no commit-time seat
check ever fires — and the final state still shows `available_seats = 1`
with two confirmed seats booked: the event is overbooked, instead of the
claimed one success, one `InsufficientSeats` failure and a final count of
zero. -/
theorem concurrent_overbooking_bug :
    (handleBooking raceDb 1 10 1 1 200).1 = ReserveResult.ok ∧
    (handleBooking (handleBooking raceDb 1 10 1 1 200).2 1 11 1 1 201).1
      = ReserveResult.ok ∧
    (∀ x ∈ (handleBooking (handleBooking raceDb 1 10 1 1 200).2 1 11 1 1 201).2.events,
      x.available_seats = 1 ∧ x.total_seats = 1) ∧
    confirmedSeats
      (handleBooking (handleBooking raceDb 1 10 1 1 200).2 1 11 1 1 201).2.bookings 1
      = 2 := by
  decide

end BookingPortal
